import Mathlib

/-!
Verification of the migraine-probability webhook integration
(`migraine_integrator_webhooks.py`) and its collaborators
(`predictioner/api_server.py`, `predictioner/predict.py`).

Python floats appear here as exact rationals (`ℚ`): every numeric
operation of the scripts is a comparison between values that parse to
the same decimal constants, so the rational model agrees with the
float semantics on the thresholds and inputs considered.
-/

/-- JSON values, as produced by `response.json()` / `json.load`.
Objects keep their field list; a duplicate key is resolved last-wins,
as Python's `json` module does. -/
inductive Json where
  | null : Json
  | bool (b : Bool) : Json
  | num (q : ℚ) : Json
  | str (s : String) : Json
  | arr (elems : List Json) : Json
  | obj (fields : List (String × Json)) : Json

/-- Last-wins lookup of a key in a field list (Python dict built by the
`json` module keeps the last occurrence of a duplicate key). -/
def lookupLast (fs : List (String × Json)) (k : String) : Option Json :=
  match fs with
  | [] => none
  | (k', v) :: rest =>
    match lookupLast rest k with
    | some w => some w
    | none => if k' = k then some v else none

/-- Contiguous-subsequence test on character lists, used for Python's
substring containment `k in s`. -/
def charSeqContains (needle : List Char) (haystack : List Char) : Bool :=
  match haystack with
  | [] => needle.isEmpty
  | _ :: rest => needle.isPrefixOf haystack || charSeqContains needle rest

/-- Python's `k in data` for a JSON-decoded value: key membership for a
dict, element equality for a list, substring test for a string, and a
`TypeError` for the non-iterable scalars (numbers, booleans, `None`). -/
def pyContains (j : Json) (k : String) : Except String Bool :=
  match j with
  | .obj fs => .ok (fs.any (fun p => p.1 == k))
  | .arr xs => .ok (xs.any (fun x => match x with | .str s => s == k | _ => false))
  | .str s => .ok (charSeqContains k.toList s.toList)
  | _ => .error "TypeError: argument of type is not iterable"

/-- Python's `data[k]` for a JSON-decoded value: dict lookup (raising
`KeyError` when absent), and a `TypeError` for every non-dict value,
since the subscript is a string. -/
def pyIndex (j : Json) (k : String) : Except String Json :=
  match j with
  | .obj fs =>
    match lookupLast fs k with
    | some v => .ok v
    | none => .error "KeyError"
  | _ => .error "TypeError: value is not subscriptable by a string"

/-- Python's `data.get(k, default)`; `main` only calls it on the
validated dict, so the non-dict branch is unreachable there. -/
def pyGetD (j : Json) (k : String) (dflt : Json) : Json :=
  match j with
  | .obj fs =>
    match lookupLast fs k with
    | some v => v
    | none => dflt
  | _ => dflt

/-- Python truthiness of a JSON-decoded value (`if migraine_data:`). -/
def jsonTruthy (j : Json) : Bool :=
  match j with
  | .null => false
  | .bool b => b
  | .num q => decide (q ≠ 0)
  | .str s => s ≠ ""
  | .arr xs => !xs.isEmpty
  | .obj fs => !fs.isEmpty

/-- `isinstance(v, (int, float))` together with the numeric value used in
comparisons: Python `bool` is a subclass of `int`, so `True` passes the
check and compares as `1`, `False` as `0`; strings, `null`, lists and
dicts are not numeric. -/
def asNumeric (j : Json) : Option ℚ :=
  match j with
  | .num q => some q
  | .bool b => some (if b then 1 else 0)
  | _ => none

/-- `CRITICAL_THRESHOLD = 0.75`. -/
def CRITICAL_THRESHOLD : ℚ := 0.75

/-- `WARNING_THRESHOLD = 0.40`. -/
def WARNING_THRESHOLD : ℚ := 0.40

/-- `WEBHOOK_ID_CRITICAL_MIGRAINE`. -/
def WEBHOOK_ID_CRITICAL_MIGRAINE : String := "critical_migraine_webhook"

/-- `WEBHOOK_ID_MIGRAINE_WARNING`. -/
def WEBHOOK_ID_MIGRAINE_WARNING : String := "migraine_warning_webhook"

/-- The possible outcomes of the `requests.get` call and of decoding its
body: the transport-level failures raised by `requests`, a body that is
not valid JSON, or a decoded JSON body. `httpError` is a non-success
(4xx/5xx) status, raised by `raise_for_status`. -/
inductive FetchOutcome where
  | timeout : FetchOutcome
  | connectionError : FetchOutcome
  | httpError (status : Nat) : FetchOutcome
  | parseError : FetchOutcome
  | ok (body : Json) : FetchOutcome

/-- `get_migraine_data_from_external_api`: returns the decoded dict when
the `migraine_probability` field is present, numeric and within `[0, 1]`,
and `None` (here `Except.ok none`) on every caught failure; an uncaught
exception (e.g. the `TypeError` raised by `"migraine_probability" not in
data` on a non-iterable body) propagates as `Except.error`. -/
def get_migraine_data_from_external_api (o : FetchOutcome) : Except String (Option Json) :=
  match o with
  | .timeout => .ok none
  | .connectionError => .ok none
  | .httpError _ => .ok none
  | .parseError => .ok none
  | .ok body =>
    match pyContains body "migraine_probability" with
    | .error e => .error e
    | .ok false => .ok none
    | .ok true =>
      match pyIndex body "migraine_probability" with
      | .error e => .error e
      | .ok v =>
        match asNumeric v with
        | none => .ok none
        | some probability =>
          if 0 ≤ probability ∧ probability ≤ 1 then .ok (some body) else .ok none

/-- The possible outcomes of the `requests.post` call made by
`trigger_home_assistant_webhook`. -/
inductive PostOutcome where
  | success : PostOutcome
  | httpError (status : Nat) : PostOutcome
  | timeout : PostOutcome
  | connError : PostOutcome

/-- The JSON body `webhook_payload` built by `main` and posted to the
webhook: `probability`, `source`, `timestamp`, `integrator_run_time`. -/
structure WebhookPayload where
  probability : Json
  source : Json
  timestamp : Json
  integrator_run_time : String

/-- One `requests.post` to a webhook endpoint, identified by its
webhook id (the URL is the fixed Home Assistant base plus
`/api/webhook/<id>`). -/
structure PostAttempt where
  webhook_id : String
  payload : WebhookPayload

/-- `trigger_home_assistant_webhook`: makes exactly one POST to the
endpoint of `webhook_id` and returns normally whatever the outcome —
`raise_for_status` errors and every other `requests` exception are
caught by the `except RequestException` clause; there is no retry. -/
def trigger_home_assistant_webhook (webhook_id : String) (payload_data : WebhookPayload)
    (outcome : PostOutcome) : Except String (List PostAttempt) :=
  match outcome with
  | .success => .ok [⟨webhook_id, payload_data⟩]
  | .httpError _ => .ok [⟨webhook_id, payload_data⟩]
  | .timeout => .ok [⟨webhook_id, payload_data⟩]
  | .connError => .ok [⟨webhook_id, payload_data⟩]

/-- The alert tier of the spec, read off from the branch that `main`
takes on the validated probability. -/
inductive AlertTier where
  | NONE : AlertTier
  | WARNING : AlertTier
  | CRITICAL : AlertTier
  deriving DecidableEq

/-- The classification cascade of `main` (lines 136-143), as a pure
function of the probability: `>= CRITICAL_THRESHOLD` first, then
`>= WARNING_THRESHOLD`, else no alert. -/
def classify (probability : ℚ) : AlertTier :=
  if probability ≥ CRITICAL_THRESHOLD then .CRITICAL
  else if probability ≥ WARNING_THRESHOLD then .WARNING
  else .NONE

/-- `main`: fetch, then on a valid reading build the payload (defaulting
`source` to "unknown" and `timestamp` to the current time `now`) and
fire at most one webhook. The result is the list of POST attempts made;
`Except.error` is an uncaught exception. `d` is the outcome of the POST
(if one is made) and `rt` the `integrator_run_time` string. -/
def runMain (o : FetchOutcome) (d : PostOutcome) (now : ℤ) (rt : String) :
    Except String (List PostAttempt) :=
  match get_migraine_data_from_external_api o with
  | .error e => .error e
  | .ok none => .ok []
  | .ok (some migraine_data) =>
    if jsonTruthy migraine_data then
      match pyIndex migraine_data "migraine_probability" with
      | .error e => .error e
      | .ok probJson =>
        let source := pyGetD migraine_data "source" (.str "unknown")
        let timestamp := pyGetD migraine_data "timestamp" (.num (now : ℚ))
        let webhook_payload : WebhookPayload := ⟨probJson, source, timestamp, rt⟩
        match asNumeric probJson with
        | none => .error "TypeError: unorderable types in comparison"
        | some probability =>
          if probability ≥ CRITICAL_THRESHOLD then
            trigger_home_assistant_webhook WEBHOOK_ID_CRITICAL_MIGRAINE webhook_payload d
          else if probability ≥ WARNING_THRESHOLD then
            trigger_home_assistant_webhook WEBHOOK_ID_MIGRAINE_WARNING webhook_payload d
          else .ok []
    else .ok []

/-- State of the prediction store file `data/prediction.json` as the api
server sees it: the file does not exist, it exists but opening or
JSON-decoding it raises (with message `msg`), or it holds JSON `data`. -/
inductive StoreState where
  | absent : StoreState
  | unreadable (msg : String) : StoreState
  | stored (data : Json) : StoreState

/-- `os.path.exists` on the prediction file. -/
def fileExists (st : StoreState) : Bool :=
  match st with
  | .absent => false
  | .unreadable _ => true
  | .stored _ => true

/-- `read_prediction` of `api_server.py`: the stored data when the file
exists and decodes, otherwise a structured error dict; `now` is
`int(time.time())`. -/
def read_prediction (st : StoreState) (now : ℤ) : Json :=
  match st with
  | .absent =>
    .obj [("error", .str "No prediction available"),
          ("message", .str "Run predict.py first to generate a prediction"),
          ("timestamp", .num (now : ℚ))]
  | .unreadable msg =>
    .obj [("error", .str "Failed to read prediction"),
          ("message", .str msg),
          ("timestamp", .num (now : ℚ))]
  | .stored data => data

/-- `get_prediction`, the handler of `GET /prediction`: returns the body
of `read_prediction` with status 200 when no "error" key is present and
404 otherwise. The `in` test raises (handed to Flask) when the stored
JSON is not a dict. -/
def get_prediction (st : StoreState) (now : ℤ) : Except String (Json × Nat) :=
  let prediction_data := read_prediction st now
  match pyContains prediction_data "error" with
  | .error e => .error e
  | .ok b => .ok (prediction_data, if b then 404 else 200)

/-- `health_check`, the handler of `GET /health`: always status 200 with
a constant "healthy" status string and the boolean file-existence flag. -/
def health_check (st : StoreState) (now : ℤ) : Json × Nat :=
  (.obj [("status", .str "healthy"),
         ("service", .str "migraine_prediction_api"),
         ("timestamp", .num (now : ℚ)),
         ("prediction_available", .bool (fileExists st))], 200)

/-- Whether a JSON value is a boolean. -/
def Json.isBool (j : Json) : Bool :=
  match j with
  | .bool _ => true
  | _ => false

/-- Rounding to the nearest integer with ties to even, the behaviour of
Python's built-in `round`. -/
def roundHalfToEven (x : ℚ) : ℤ :=
  if x - ⌊x⌋ < 1/2 then ⌊x⌋
  else if 1/2 < x - ⌊x⌋ then ⌊x⌋ + 1
  else if ⌊x⌋ % 2 = 0 then ⌊x⌋ else ⌊x⌋ + 1

/-- Python's `round(x, 4)`: the nearest multiple of `1/10000`, ties to
even. -/
def round4 (x : ℚ) : ℚ := (roundHalfToEven (x * 10000) : ℚ) / 10000

/-- `validate_input` of `predict.py`, after the `float` conversion has
succeeded: accept the value iff it lies in `[0, 1]`. -/
def validate_input (value : ℚ) : Option ℚ :=
  if 0 ≤ value ∧ value ≤ 1 then some value else none

/-- `save_prediction` of `predict.py`: the JSON object written to
`data/prediction.json` for an accepted probability, with `now` standing
for `int(time.time())`. -/
def save_prediction (migraine_probability : ℚ) (now : ℤ) : Json :=
  .obj [("migraine_probability", .num (round4 migraine_probability)),
        ("timestamp", .num (now : ℚ)),
        ("source", .str "manual_input")]

theorem trigger_eq (webhook_id : String) (pl : WebhookPayload) (d : PostOutcome) :
    trigger_home_assistant_webhook webhook_id pl d = .ok [⟨webhook_id, pl⟩] := by
  cases d <;> rfl

theorem any_of_lookupLast {fs : List (String × Json)} {k : String} {v : Json}
    (h : lookupLast fs k = some v) : fs.any (fun p => p.1 == k) = true := by
  induction fs with
  | nil => simp [lookupLast] at h
  | cons hd tl ih =>
    rw [lookupLast] at h
    simp only [List.any_cons, Bool.or_eq_true]
    rcases htl : lookupLast tl k with _ | w
    · rw [htl] at h
      simp only [] at h
      split at h
      · left; simp_all
      · simp at h
    · rw [htl] at h
      simp only [Option.some.injEq] at h
      subst h
      right; exact ih htl

theorem lookupLast_ne_nil {fs : List (String × Json)} {k : String} {v : Json}
    (h : lookupLast fs k = some v) : fs ≠ [] := by
  intro he; subst he; simp [lookupLast] at h

theorem isEmpty_false_of_ne_nil {fs : List (String × Json)} (h : fs ≠ []) :
    fs.isEmpty = false := by
  cases fs with
  | nil => exact absurd rfl h
  | cons a l => rfl

theorem fetch_obj_ok (fs : List (String × Json)) (v : Json) (q : ℚ)
    (hidx : lookupLast fs "migraine_probability" = some v)
    (hnum : asNumeric v = some q) (h0 : 0 ≤ q) (h1 : q ≤ 1) :
    get_migraine_data_from_external_api (.ok (.obj fs)) = .ok (some (.obj fs)) := by
  have hany := any_of_lookupLast hidx
  rw [get_migraine_data_from_external_api]
  simp only [pyContains, hany, pyIndex, hidx, hnum, h0, h1, and_self, if_true]

theorem runMain_obj_eq (fs : List (String × Json)) (v : Json) (q : ℚ) (d : PostOutcome)
    (now : ℤ) (rt : String)
    (hidx : lookupLast fs "migraine_probability" = some v)
    (hnum : asNumeric v = some q) (h0 : 0 ≤ q) (h1 : q ≤ 1) :
    runMain (.ok (.obj fs)) d now rt =
      .ok (if q ≥ CRITICAL_THRESHOLD then
             [⟨WEBHOOK_ID_CRITICAL_MIGRAINE, ⟨v, pyGetD (.obj fs) "source" (.str "unknown"),
               pyGetD (.obj fs) "timestamp" (.num (now : ℚ)), rt⟩⟩]
           else if q ≥ WARNING_THRESHOLD then
             [⟨WEBHOOK_ID_MIGRAINE_WARNING, ⟨v, pyGetD (.obj fs) "source" (.str "unknown"),
               pyGetD (.obj fs) "timestamp" (.num (now : ℚ)), rt⟩⟩]
           else []) := by
  have hie := isEmpty_false_of_ne_nil (lookupLast_ne_nil hidx)
  rw [runMain, fetch_obj_ok fs v q hidx hnum h0 h1]
  simp only [jsonTruthy, hie, Bool.not_false, if_true, pyIndex, hidx, hnum, trigger_eq]
  split
  · rfl
  · split <;> rfl

theorem runMain_length_le_one (o : FetchOutcome) (d : PostOutcome) (now : ℤ) (rt : String)
    (l : List PostAttempt) (h : runMain o d now rt = .ok l) : l.length ≤ 1 := by
  rw [runMain] at h
  simp only [trigger_eq] at h
  repeat' split at h
  all_goals
    first
      | (cases h; simp)
      | simp_all

/-- C1: for every probability `p` in `[0, 1]`, the classification cascade
assigns CRITICAL iff `p ≥ 0.75`, WARNING iff `0.40 ≤ p < 0.75`, and NONE
iff `p < 0.40`; both thresholds are inclusive lower bounds and CRITICAL
takes precedence when both threshold conditions hold. -/
theorem C1_tier_thresholds (p : ℚ) (h0 : 0 ≤ p) (h1 : p ≤ 1) :
    (classify p = .CRITICAL ↔ p ≥ 0.75) ∧
    (classify p = .WARNING ↔ 0.40 ≤ p ∧ p < 0.75) ∧
    (classify p = .NONE ↔ p < 0.40) ∧
    classify 0.40 = .WARNING ∧ classify 0.75 = .CRITICAL := by
  have h40 : classify (0.40 : ℚ) = .WARNING := by
    unfold classify CRITICAL_THRESHOLD WARNING_THRESHOLD
    norm_num
  have h75 : classify (0.75 : ℚ) = .CRITICAL := by
    unfold classify CRITICAL_THRESHOLD WARNING_THRESHOLD
    norm_num
  refine ⟨?_, ?_, ?_, h40, h75⟩ <;>
  · unfold classify CRITICAL_THRESHOLD WARNING_THRESHOLD
    split_ifs with hc hw <;> constructor <;> intro hx <;>
      first
        | rfl
        | linarith
        | (constructor <;> linarith)
        | simp_all

/-- Witness for C1 at the warning boundary `p = 0.40`. -/
theorem C1_tier_thresholds_witness :
    0 ≤ (0.40 : ℚ) ∧ (0.40 : ℚ) ≤ 1 ∧
      ((classify 0.40 = .CRITICAL ↔ (0.40 : ℚ) ≥ 0.75) ∧
       (classify 0.40 = .WARNING ↔ (0.40 : ℚ) ≤ 0.40 ∧ (0.40 : ℚ) < 0.75) ∧
       (classify 0.40 = .NONE ↔ (0.40 : ℚ) < 0.40) ∧
       classify 0.40 = .WARNING ∧ classify 0.75 = .CRITICAL) :=
  ⟨by norm_num, by norm_num, C1_tier_thresholds 0.40 (by norm_num) (by norm_num)⟩

/-- C2: every pipeline run makes at most one outbound notification call;
for a validated reading with probability `q ≥ 0.75` exactly one call is
made, to the critical endpoint and never to the warning endpoint; for
`0.40 ≤ q < 0.75` exactly one call is made, to the warning endpoint; for
`q < 0.40` no call is made. -/
theorem C2_at_most_one_dispatch (body v : Json) (q : ℚ) (d : PostOutcome) (now : ℤ)
    (rt : String)
    (hidx : pyIndex body "migraine_probability" = .ok v)
    (hnum : asNumeric v = some q) (h0 : 0 ≤ q) (h1 : q ≤ 1) :
    (∀ (o : FetchOutcome) (e : PostOutcome) (n : ℤ) (r : String) (l : List PostAttempt),
        runMain o e n r = .ok l → l.length ≤ 1) ∧
    (q ≥ CRITICAL_THRESHOLD →
      runMain (.ok body) d now rt =
        .ok [⟨WEBHOOK_ID_CRITICAL_MIGRAINE,
              ⟨v, pyGetD body "source" (.str "unknown"),
               pyGetD body "timestamp" (.num (now : ℚ)), rt⟩⟩]) ∧
    (WARNING_THRESHOLD ≤ q → q < CRITICAL_THRESHOLD →
      runMain (.ok body) d now rt =
        .ok [⟨WEBHOOK_ID_MIGRAINE_WARNING,
              ⟨v, pyGetD body "source" (.str "unknown"),
               pyGetD body "timestamp" (.num (now : ℚ)), rt⟩⟩]) ∧
    (q < WARNING_THRESHOLD → runMain (.ok body) d now rt = .ok []) := by
  have hobj : ∃ fs, body = Json.obj fs := by
    cases body
    case obj fs => exact ⟨fs, rfl⟩
    all_goals simp [pyIndex] at hidx
  obtain ⟨fs, rfl⟩ := hobj
  rw [pyIndex] at hidx
  rcases hl : lookupLast fs "migraine_probability" with _ | w
  · rw [hl] at hidx; simp at hidx
  · rw [hl] at hidx
    simp only [Except.ok.injEq] at hidx
    subst hidx
    refine ⟨fun o e n r l h => runMain_length_le_one o e n r l h, ?_, ?_, ?_⟩
    · intro hq
      rw [runMain_obj_eq fs w q d now rt hl hnum h0 h1, if_pos hq]
    · intro hq1 hq2
      rw [runMain_obj_eq fs w q d now rt hl hnum h0 h1, if_neg (not_le.mpr hq2), if_pos hq1]
    · intro hq
      have hwc : WARNING_THRESHOLD < CRITICAL_THRESHOLD := by
        norm_num [WARNING_THRESHOLD, CRITICAL_THRESHOLD]
      rw [runMain_obj_eq fs w q d now rt hl hnum h0 h1,
        if_neg (not_le.mpr (lt_trans hq hwc)), if_neg (not_le.mpr hq)]

/-- Witness for C2 at the spec scenario `{"migraine_probability": 0.80}`. -/
theorem C2_at_most_one_dispatch_witness :
    pyIndex (Json.obj [("migraine_probability", .num 0.80)]) "migraine_probability" =
        .ok (.num 0.80) ∧
    asNumeric (.num 0.80) = some 0.80 ∧ 0 ≤ (0.80 : ℚ) ∧ (0.80 : ℚ) ≤ 1 ∧
    ((∀ (o : FetchOutcome) (e : PostOutcome) (n : ℤ) (r : String) (l : List PostAttempt),
        runMain o e n r = .ok l → l.length ≤ 1) ∧
     ((0.80 : ℚ) ≥ CRITICAL_THRESHOLD →
       runMain (.ok (Json.obj [("migraine_probability", .num 0.80)])) .success 0 "t" =
         .ok [⟨WEBHOOK_ID_CRITICAL_MIGRAINE,
               ⟨.num 0.80, pyGetD (Json.obj [("migraine_probability", .num 0.80)]) "source"
                  (.str "unknown"),
                pyGetD (Json.obj [("migraine_probability", .num 0.80)]) "timestamp"
                  (.num ((0 : ℤ) : ℚ)), "t"⟩⟩]) ∧
     (WARNING_THRESHOLD ≤ (0.80 : ℚ) → (0.80 : ℚ) < CRITICAL_THRESHOLD →
       runMain (.ok (Json.obj [("migraine_probability", .num 0.80)])) .success 0 "t" =
         .ok [⟨WEBHOOK_ID_MIGRAINE_WARNING,
               ⟨.num 0.80, pyGetD (Json.obj [("migraine_probability", .num 0.80)]) "source"
                  (.str "unknown"),
                pyGetD (Json.obj [("migraine_probability", .num 0.80)]) "timestamp"
                  (.num ((0 : ℤ) : ℚ)), "t"⟩⟩]) ∧
     ((0.80 : ℚ) < WARNING_THRESHOLD →
       runMain (.ok (Json.obj [("migraine_probability", .num 0.80)])) .success 0 "t" = .ok [])) :=
  ⟨rfl, rfl, by norm_num, by norm_num,
   C2_at_most_one_dispatch (Json.obj [("migraine_probability", .num 0.80)]) (.num 0.80) 0.80
     .success 0 "t" rfl rfl (by norm_num) (by norm_num)⟩

/-- C3 (code evaluated at the failing input): a response with a valid
JSON body that is a bare number — so the probability field is missing —
makes the membership test `"migraine_probability" not in data` raise an
uncaught `TypeError` that crashes the run, instead of the validation
failure (`None` return, no dispatch) that the claim and the function's
own docstring describe; on an object body with the field missing the
code does return the validation failure. -/
theorem C3_scalar_body_crashes :
    get_migraine_data_from_external_api (.ok (Json.num 5)) =
      .error "TypeError: argument of type is not iterable" ∧
    runMain (.ok (Json.num 5)) .success 0 "t" =
      .error "TypeError: argument of type is not iterable" ∧
    get_migraine_data_from_external_api (.ok (Json.obj [])) = .ok none ∧
    runMain (.ok (Json.obj [])) .success 0 "t" = .ok [] :=
  ⟨rfl, rfl, rfl, rfl⟩

/-- C4 counterexample: the fetch failure value is the single bare
sentinel `None`, identical for a timeout and for a connection error, so
it is not a tagged failure value carrying a human-readable cause —
the cause exists only in the log output. -/
theorem C4_sentinel_counterexample :
    get_migraine_data_from_external_api .timeout =
      get_migraine_data_from_external_api .connectionError ∧
    get_migraine_data_from_external_api .timeout = .ok none :=
  ⟨rfl, rfl⟩

/-- C4 amended: on every fetch-side failure (timeout, connection error,
non-success HTTP status, parse failure, or validation failure) the fetch
returns the bare sentinel `None` — not an exception — with the
human-readable cause only logged, and the caller does not proceed to
classification or dispatch. -/
theorem C4_amended_none_on_failure (o : FetchOutcome) (s : Nat) (d : PostOutcome) (now : ℤ)
    (rt : String) (h : get_migraine_data_from_external_api o = .ok none) :
    (get_migraine_data_from_external_api .timeout = .ok none ∧
     get_migraine_data_from_external_api .connectionError = .ok none ∧
     get_migraine_data_from_external_api (.httpError s) = .ok none ∧
     get_migraine_data_from_external_api .parseError = .ok none) ∧
    runMain o d now rt = .ok [] := by
  refine ⟨⟨rfl, rfl, rfl, rfl⟩, ?_⟩
  rw [runMain, h]

/-- Witness for C4 amended at a timed-out fetch. -/
theorem C4_amended_none_on_failure_witness :
    get_migraine_data_from_external_api .timeout = .ok none ∧
    ((get_migraine_data_from_external_api .timeout = .ok none ∧
      get_migraine_data_from_external_api .connectionError = .ok none ∧
      get_migraine_data_from_external_api (.httpError 500) = .ok none ∧
      get_migraine_data_from_external_api .parseError = .ok none) ∧
     runMain .timeout .success 0 "t" = .ok []) :=
  ⟨rfl, C4_amended_none_on_failure .timeout 500 .success 0 "t" rfl⟩

/-- C5: for every validated reading the notification payload carries the
fetched probability value unchanged, the fetched source when present
(else the default "unknown"), and the fetched timestamp when present
(else the current time); a missing source or timestamp never fails the
run. -/
theorem C5_payload_defaults (fs : List (String × Json)) (v : Json) (q : ℚ) (d : PostOutcome)
    (now : ℤ) (rt : String)
    (hidx : lookupLast fs "migraine_probability" = some v)
    (hnum : asNumeric v = some q) (h0 : 0 ≤ q) (h1 : q ≤ 1) :
    ∃ calls : List PostAttempt, runMain (.ok (.obj fs)) d now rt = .ok calls ∧
      ∀ c ∈ calls,
        c.payload.probability = v ∧
        (∀ s, lookupLast fs "source" = some s → c.payload.source = s) ∧
        (lookupLast fs "source" = none → c.payload.source = .str "unknown") ∧
        (∀ t, lookupLast fs "timestamp" = some t → c.payload.timestamp = t) ∧
        (lookupLast fs "timestamp" = none → c.payload.timestamp = .num (now : ℚ)) := by
  refine ⟨_, runMain_obj_eq fs v q d now rt hidx hnum h0 h1, ?_⟩
  intro c hc
  have hpay : c.payload =
      ⟨v, pyGetD (.obj fs) "source" (.str "unknown"),
       pyGetD (.obj fs) "timestamp" (.num (now : ℚ)), rt⟩ := by
    split at hc
    · simp at hc; rw [hc]
    · split at hc
      · simp at hc; rw [hc]
      · simp at hc
  rw [hpay]
  refine ⟨rfl, ?_, ?_, ?_, ?_⟩
  · intro s hs; simp [pyGetD, hs]
  · intro hs; simp [pyGetD, hs]
  · intro t ht; simp [pyGetD, ht]
  · intro ht; simp [pyGetD, ht]

/-- Witness for C5 at the spec scenario
`{"migraine_probability": 0.50, "source": "wearable"}`. -/
theorem C5_payload_defaults_witness :
    lookupLast [("migraine_probability", Json.num 0.50), ("source", Json.str "wearable")]
        "migraine_probability" = some (.num 0.50) ∧
    asNumeric (.num 0.50) = some 0.50 ∧ 0 ≤ (0.50 : ℚ) ∧ (0.50 : ℚ) ≤ 1 ∧
    (∃ calls : List PostAttempt,
      runMain (.ok (.obj [("migraine_probability", Json.num 0.50),
        ("source", Json.str "wearable")])) .success 0 "t" = .ok calls ∧
      ∀ c ∈ calls,
        c.payload.probability = .num 0.50 ∧
        (∀ s, lookupLast [("migraine_probability", Json.num 0.50),
            ("source", Json.str "wearable")] "source" = some s → c.payload.source = s) ∧
        (lookupLast [("migraine_probability", Json.num 0.50),
            ("source", Json.str "wearable")] "source" = none →
          c.payload.source = .str "unknown") ∧
        (∀ t, lookupLast [("migraine_probability", Json.num 0.50),
            ("source", Json.str "wearable")] "timestamp" = some t →
          c.payload.timestamp = t) ∧
        (lookupLast [("migraine_probability", Json.num 0.50),
            ("source", Json.str "wearable")] "timestamp" = none →
          c.payload.timestamp = .num ((0 : ℤ) : ℚ))) :=
  ⟨rfl, rfl, by norm_num, by norm_num,
   C5_payload_defaults [("migraine_probability", Json.num 0.50), ("source", Json.str "wearable")]
     (.num 0.50) 0.50 .success 0 "t" rfl rfl (by norm_num) (by norm_num)⟩

/-- C6: each of the enumerated fetch-side errors — non-success HTTP
status, request timeout, connection error, response-body parse failure —
is caught at its origin and converted to the `None` outcome: the run
makes no dispatch call and completes without raising. -/
theorem C6_fetch_errors_caught (s : Nat) (d : PostOutcome) (now : ℤ) (rt : String) :
    (get_migraine_data_from_external_api .timeout = .ok none ∧
      runMain .timeout d now rt = .ok []) ∧
    (get_migraine_data_from_external_api .connectionError = .ok none ∧
      runMain .connectionError d now rt = .ok []) ∧
    (get_migraine_data_from_external_api (.httpError s) = .ok none ∧
      runMain (.httpError s) d now rt = .ok []) ∧
    (get_migraine_data_from_external_api .parseError = .ok none ∧
      runMain .parseError d now rt = .ok []) :=
  ⟨⟨rfl, rfl⟩, ⟨rfl, rfl⟩, ⟨rfl, rfl⟩, ⟨rfl, rfl⟩⟩

/-- C7: a dispatch attempt makes exactly one POST to the chosen endpoint
and returns normally whatever the outcome (success, non-success status,
timeout, network error) — no exception propagates and no retry occurs —
and the pipeline result is unchanged by the dispatch outcome. -/
theorem C7_dispatch_failure_no_raise (webhook_id : String) (pl : WebhookPayload)
    (d : PostOutcome) :
    trigger_home_assistant_webhook webhook_id pl d = .ok [⟨webhook_id, pl⟩] ∧
    (∀ (o : FetchOutcome) (now : ℤ) (rt : String) (e₁ e₂ : PostOutcome),
      runMain o e₁ now rt = runMain o e₂ now rt) := by
  refine ⟨trigger_eq webhook_id pl d, ?_⟩
  intro o now rt e₁ e₂
  rw [runMain, runMain]
  simp only [trigger_eq]

/-- C8 counterexample: the health-check response reports liveness as the
constant string "healthy", not as a boolean. -/
theorem C8_health_liveness_not_boolean :
    pyIndex (health_check .absent 0).1 "status" = .ok (.str "healthy") ∧
    Json.isBool (.str "healthy") = false :=
  ⟨rfl, rfl⟩

/-- C8 amended: the retrieval endpoint returns the stored Reading as
JSON with status 200 when the prediction file exists, is readable, and
the stored object has no "error" key (always the case for readings the
store itself writes), and otherwise a structured unavailable-response
with status 404, not a crash; the health-check endpoint answers 200 and
reports data availability as a boolean and liveness as the constant
status string "healthy". -/
theorem C8_store_endpoints (r : Json) (msg : String) (now : ℤ) (st : StoreState)
    (herr : pyContains r "error" = .ok false) :
    get_prediction (.stored r) now = .ok (r, 200) ∧
    get_prediction .absent now = .ok (read_prediction .absent now, 404) ∧
    get_prediction (.unreadable msg) now = .ok (read_prediction (.unreadable msg) now, 404) ∧
    (health_check st now).2 = 200 ∧
    pyIndex (health_check st now).1 "prediction_available" = .ok (.bool (fileExists st)) ∧
    pyIndex (health_check st now).1 "status" = .ok (.str "healthy") := by
  refine ⟨?_, rfl, rfl, rfl, rfl, rfl⟩
  simp [get_prediction, read_prediction, herr]

/-- Witness for C8 amended at a reading stored by `save_prediction`. -/
theorem C8_store_endpoints_witness :
    pyContains (Json.obj [("migraine_probability", .num 1), ("timestamp", .num 0),
        ("source", .str "manual_input")]) "error" = .ok false ∧
    (get_prediction (.stored (Json.obj [("migraine_probability", .num 1), ("timestamp", .num 0),
        ("source", .str "manual_input")])) 0 =
      .ok (Json.obj [("migraine_probability", .num 1), ("timestamp", .num 0),
        ("source", .str "manual_input")], 200) ∧
     get_prediction .absent 0 = .ok (read_prediction .absent 0, 404) ∧
     get_prediction (.unreadable "boom") 0 = .ok (read_prediction (.unreadable "boom") 0, 404) ∧
     (health_check .absent 0).2 = 200 ∧
     pyIndex (health_check .absent 0).1 "prediction_available" =
       .ok (.bool (fileExists .absent)) ∧
     pyIndex (health_check .absent 0).1 "status" = .ok (.str "healthy")) :=
  ⟨rfl, C8_store_endpoints (Json.obj [("migraine_probability", .num 1), ("timestamp", .num 0),
    ("source", .str "manual_input")]) "boom" 0 .absent rfl⟩

/-- C9: the body `{"migraine_probability": true}` passes validation —
Python's `bool` is a subclass of `int`, so `True` passes the
`isinstance` check and the range check as the value 1 — and the run
classifies it as CRITICAL and makes one dispatch call to the critical
endpoint, with the boolean itself in the payload. -/
theorem C9_boolean_true_is_critical (d : PostOutcome) (now : ℤ) (rt : String) :
    get_migraine_data_from_external_api (.ok (.obj [("migraine_probability", .bool true)])) =
      .ok (some (.obj [("migraine_probability", .bool true)])) ∧
    runMain (.ok (.obj [("migraine_probability", .bool true)])) d now rt =
      .ok [⟨WEBHOOK_ID_CRITICAL_MIGRAINE, ⟨.bool true, .str "unknown", .num (now : ℚ), rt⟩⟩] := by
  constructor
  · exact fetch_obj_ok [("migraine_probability", .bool true)] (.bool true) 1 rfl rfl
      (by norm_num) (by norm_num)
  · rw [runMain_obj_eq [("migraine_probability", .bool true)] (.bool true) 1 d now rt rfl rfl
      (by norm_num) (by norm_num),
      if_pos (show (1 : ℚ) ≥ CRITICAL_THRESHOLD by norm_num [CRITICAL_THRESHOLD])]
    rfl

theorem roundHalfToEven_abs_le (x : ℚ) : |(roundHalfToEven x : ℚ) - x| ≤ 1/2 := by
  have hfl : (⌊x⌋ : ℚ) ≤ x := Int.floor_le x
  have hfu : x < ⌊x⌋ + 1 := Int.lt_floor_add_one x
  rw [roundHalfToEven]
  split_ifs with h1 h2 h3
  · rw [abs_sub_comm, abs_of_nonneg (by linarith)]
    linarith
  · push_cast
    rw [abs_of_nonneg (by linarith)]
    linarith
  · rw [abs_sub_comm, abs_of_nonneg (by linarith)]
    linarith
  · push_cast
    rw [abs_of_nonneg (by linarith)]
    linarith

theorem round4_abs_le (v : ℚ) : |round4 v - v| ≤ 1/20000 := by
  have h := roundHalfToEven_abs_le (v * 10000)
  have h10000 : (0 : ℚ) < 10000 := by norm_num
  rw [round4]
  have he : (roundHalfToEven (v * 10000) : ℚ) / 10000 - v
      = ((roundHalfToEven (v * 10000) : ℚ) - v * 10000) / 10000 := by ring
  rw [he, abs_div, abs_of_pos h10000, div_le_iff₀ h10000]
  linarith

/-- C10: every accepted manual input `v` in `[0, 1]` is stored as the
probability rounded to 4 decimal places — within `1/20000 = 0.00005` of
`v` — together with the fixed source string "manual_input" and the
current epoch time as the timestamp. -/
theorem C10_save_rounded (v : ℚ) (now : ℤ) (h0 : 0 ≤ v) (h1 : v ≤ 1) :
    validate_input v = some v ∧
    save_prediction v now =
      .obj [("migraine_probability", .num (round4 v)), ("timestamp", .num (now : ℚ)),
            ("source", .str "manual_input")] ∧
    |round4 v - v| ≤ 1/20000 := by
  refine ⟨?_, rfl, round4_abs_le v⟩
  rw [validate_input, if_pos ⟨h0, h1⟩]

/-- Witness for C10 at the input `1/3`. -/
theorem C10_save_rounded_witness :
    0 ≤ (1/3 : ℚ) ∧ (1/3 : ℚ) ≤ 1 ∧
    (validate_input (1/3) = some (1/3) ∧
     save_prediction (1/3) 7 =
       .obj [("migraine_probability", .num (round4 (1/3))), ("timestamp", .num ((7 : ℤ) : ℚ)),
             ("source", .str "manual_input")] ∧
     |round4 (1/3) - (1/3 : ℚ)| ≤ 1/20000) :=
  ⟨by norm_num, by norm_num, C10_save_rounded (1/3) 7 (by norm_num) (by norm_num)⟩
